import Mathlib

/-!
Verification of the Video-Clipper pipeline (`src/youtube_to_instagram.py`)
against its design specification. Each operation of the program is embedded
as a pure Lean function; exceptional control flow is embedded as `Except`,
the Caption Model Adapter's outcome as `Except String (List String)` (a
raised exception, or the list of generated sequences), and the file-system
effect on the fixed `downloads` directory as explicit state passing.
Durations and timestamps are embedded as rationals.
-/

namespace VideoClipper

/-- A fetched source video, as the Transcoder sees it: a local path plus the
total duration `VideoFileClip` reads from the file (src line 112, 115). -/
structure SourceMedia where
  path : String
  total_duration : ℚ
deriving DecidableEq

/-- The full write request `export_instagram_video` issues: the subclip
window handed to `subclipped` (src line 119), the (disabled) spatial resize
(src lines 122-124), and the arguments of `write_videofile`
(src lines 127-135). -/
structure ExportJob where
  window_start : ℚ
  window_end : ℚ
  resize : Option (Nat × Nat)
  output_path : String
  codec : String
  audio_codec : String
  fps : Nat
deriving DecidableEq

/-- Embeds `export_instagram_video` (src lines 96-140). The `start_time`
parameter is unconditionally rebound from the centering formula
`max(0, (total_duration - clip_duration) / 2)` (src line 116) before any
use; the subclip is `(start_time, start_time + clip_duration)` with no
clamping to `total_duration` (src line 119); the resize is commented out
(src lines 122-124); path, codecs and fps are literals (src lines 127-134). -/
def export_instagram_video (clip_duration : ℚ) (source : SourceMedia)
    (start_time : ℚ) : ExportJob :=
  let total_duration := source.total_duration
  let start_time := max 0 ((total_duration - clip_duration) / 2)
  { window_start := start_time
    window_end := start_time + clip_duration
    resize := none
    output_path := "downloads/instagram_clip.mp4"
    codec := "libx264"
    audio_codec := "aac"
    fps := 30 }

/-- C1, counterexample. The claim asserts the effective cut never reads past
`total_duration` (end clamped to `total_duration`), so `end ≤ total`. With
`clip_duration = 15` and a 10-second source the computed window end is
`0 + 15 = 15 > 10`: src line 119 performs no clamping. -/
theorem C1_counterexample :
    ¬ ((export_instagram_video 15 ⟨"downloads/source_video.mp4", 10⟩ 0).window_end
        ≤ (10 : ℚ)) := by
  simp only [export_instagram_video]
  norm_num

/-- C1 (amended): for every source with `clip_duration > total_duration ≥ 0`,
the selected window has `start = 0`, but the cut's end is
`start + clip_duration = clip_duration`, which exceeds `total_duration`: the
code never clamps the end, so the produced window violates
`end ≤ total_duration` whenever the source is shorter than the request. -/
theorem C1_short_source_window (clip_duration : ℚ) (source : SourceMedia)
    (start_time : ℚ) (h0 : 0 ≤ source.total_duration)
    (h : source.total_duration < clip_duration) :
    (export_instagram_video clip_duration source start_time).window_start = 0 ∧
    (export_instagram_video clip_duration source start_time).window_end
      = clip_duration ∧
    source.total_duration
      < (export_instagram_video clip_duration source start_time).window_end := by
  have hmax : max 0 ((source.total_duration - clip_duration) / 2) = 0 := by
    apply max_eq_left
    linarith
  refine ⟨?_, ?_, ?_⟩ <;> simp only [export_instagram_video, hmax] <;> linarith

/-- C1 witness: a 10-second source with a 15-second request. -/
theorem C1_short_source_window_witness :
    (export_instagram_video 15 ⟨"downloads/source_video.mp4", 10⟩ 0).window_start
        = 0 ∧
    (export_instagram_video 15 ⟨"downloads/source_video.mp4", 10⟩ 0).window_end
        = 15 ∧
    (10 : ℚ)
      < (export_instagram_video 15 ⟨"downloads/source_video.mp4", 10⟩ 0).window_end :=
  C1_short_source_window 15 ⟨"downloads/source_video.mp4", 10⟩ 0
    (by norm_num) (by norm_num)

/-- C2: for `total_duration ≥ clip_duration ≥ 0` the selected window has
length exactly `clip_duration`, `start ≥ 0`, `end ≤ total_duration`, and
`start = (total_duration - clip_duration) / 2`; the window depends only on
the two durations (path and `start_time` argument are irrelevant), so equal
inputs yield equal windows. -/
theorem C2_centered_window (clip_duration td : ℚ) (p1 p2 : String)
    (s1 s2 : ℚ) (h0 : 0 ≤ clip_duration) (h : clip_duration ≤ td) :
    (export_instagram_video clip_duration ⟨p1, td⟩ s1).window_end
        - (export_instagram_video clip_duration ⟨p1, td⟩ s1).window_start
      = clip_duration ∧
    0 ≤ (export_instagram_video clip_duration ⟨p1, td⟩ s1).window_start ∧
    (export_instagram_video clip_duration ⟨p1, td⟩ s1).window_end ≤ td ∧
    (export_instagram_video clip_duration ⟨p1, td⟩ s1).window_start
      = (td - clip_duration) / 2 ∧
    ((export_instagram_video clip_duration ⟨p1, td⟩ s1).window_start,
        (export_instagram_video clip_duration ⟨p1, td⟩ s1).window_end)
      = ((export_instagram_video clip_duration ⟨p2, td⟩ s2).window_start,
        (export_instagram_video clip_duration ⟨p2, td⟩ s2).window_end) := by
  have hmax : max 0 ((td - clip_duration) / 2) = (td - clip_duration) / 2 := by
    apply max_eq_right
    linarith
  refine ⟨?_, ?_, ?_, ?_, ?_⟩ <;> simp only [export_instagram_video, hmax] <;>
    linarith

/-- C2 witness: the spec's own example, a 40-second source and a 15-second
request, giving the window `[12.5, 27.5]`. -/
theorem C2_centered_window_witness :
    (export_instagram_video 15 ⟨"downloads/source_video.mp4", 40⟩ 0).window_end
        - (export_instagram_video 15 ⟨"downloads/source_video.mp4", 40⟩ 0).window_start
      = 15 ∧
    0 ≤ (export_instagram_video 15 ⟨"downloads/source_video.mp4", 40⟩ 0).window_start ∧
    (export_instagram_video 15 ⟨"downloads/source_video.mp4", 40⟩ 0).window_end
      ≤ (40 : ℚ) ∧
    (export_instagram_video 15 ⟨"downloads/source_video.mp4", 40⟩ 0).window_start
      = (40 - 15) / 2 ∧
    ((export_instagram_video 15 ⟨"downloads/source_video.mp4", 40⟩ 0).window_start,
        (export_instagram_video 15 ⟨"downloads/source_video.mp4", 40⟩ 0).window_end)
      = ((export_instagram_video 15 ⟨"other.mp4", 40⟩ 3).window_start,
        (export_instagram_video 15 ⟨"other.mp4", 40⟩ 3).window_end) :=
  C2_centered_window 15 40 "downloads/source_video.mp4" "other.mp4" 0 3
    (by norm_num) (by norm_num)

/-- Embeds Python's `str.strip()`: remove leading and trailing whitespace
characters. -/
def strip (s : String) : String :=
  (((s.data.dropWhile Char.isWhitespace).reverse.dropWhile
      Char.isWhitespace).reverse).asString

/-- Embeds `generate_marketing_caption` (src lines 76-94). The Caption Model
Adapter call either raises (`Except.error`) or returns the list of generated
sequences; the code indexes `[0]` (an empty list raises `IndexError`, caught
by the same handler), reads its text and strips surrounding whitespace
(src lines 85-91); any exception in the `try` block yields the fixed
fallback string (src line 94). -/
def generate_marketing_caption (adapter : Except String (List String)) :
    String :=
  match adapter with
  | Except.ok (caption :: _) => strip caption
  | Except.ok [] => "Check out this amazing video!"
  | Except.error _ => "Check out this amazing video!"

/-- The three pipeline stages `process_video` can invoke, in invocation
order; an output file exists only if the `transcode` stage ran and
succeeded. -/
inductive Step where
  | fetch
  | caption
  | transcode
deriving DecidableEq

/-- Embeds `process_video` (src lines 142-169): download, then caption
generation (total, never raises), then export; any exception from download
or export is logged and re-raised unchanged. The returned trace lists the
stages that were invoked, in order. -/
def process_video (fetch_result : Except String String)
    (adapter : Except String (List String))
    (transcode : String → Except String String) :
    Except String (String × String) × List Step :=
  match fetch_result with
  | Except.error e => (Except.error e, [Step.fetch])
  | Except.ok video_path =>
    let caption := generate_marketing_caption adapter
    match transcode video_path with
    | Except.error e =>
      (Except.error e, [Step.fetch, Step.caption, Step.transcode])
    | Except.ok instagram_video =>
      (Except.ok (instagram_video, caption),
        [Step.fetch, Step.caption, Step.transcode])

/-- The state `YouTubeMarketingGenerator.__init__` establishes on success
(src lines 12-41); the loaded model itself is opaque to the pipeline logic. -/
structure YouTubeMarketingGenerator where
  clip_duration : ℚ
deriving DecidableEq

/-- Embeds `YouTubeMarketingGenerator.__init__` (src lines 12-41): a failure
while loading the text-generation model is logged with `logger.error` and
then re-raised (src lines 39-41), so construction fails and no generator
exists. -/
def init_generator (clip_duration : ℚ) (model_load : Except String Unit) :
    Except String YouTubeMarketingGenerator :=
  match model_load with
  | Except.ok _ => Except.ok { clip_duration := clip_duration }
  | Except.error e => Except.error e

/-- Embeds the `ydl_opts` dictionary handed to `yt_dlp` (src lines 54-59). -/
structure YdlOpts where
  format : String
  outtmpl : String
  nooverwrites : Bool
  no_color : Bool
deriving DecidableEq

/-- The configured options of `download_youtube_video` (src lines 54-59). -/
def ydl_opts : YdlOpts :=
  { format := "bestvideo[ext=mp4]+bestaudio[ext=m4a]/best[ext=mp4]/best"
    outtmpl := "downloads/source_video.%(ext)s"
    nooverwrites := true
    no_color := true }

/-- The observable state of the fixed `downloads` directory: the content
(abstracted as a `Nat` tag) of the file at the source template path and of
`downloads/instagram_clip.mp4`; `none` means the file is absent. -/
structure DownloadsDir where
  source_file : Option Nat
  clip_file : Option Nat
deriving DecidableEq

/-- File-system effect of `download_youtube_video` (src lines 43-74) on the
file at the fixed output template path: `yt_dlp` with `nooverwrites = true`
(src line 57) keeps an existing file at that path — it skips the download
without error — and only writes the freshly fetched content when the path is
free. -/
def download_youtube_video_fs (existing : Option Nat) (fresh : Nat) :
    Option Nat :=
  if ydl_opts.nooverwrites && existing.isSome then existing
  else some fresh

/-- File-system effect of the `write_videofile` call (src lines 130-135) on
`downloads/instagram_clip.mp4`: the write replaces whatever was at the path
unconditionally. -/
def write_videofile_fs (existing : Option Nat) (fresh : Nat) : Option Nat :=
  some fresh

/-- File-system effect of one successful `process_video` run on the
`downloads` directory: the download step followed by the export step, with
`freshSource` and `freshClip` the contents this run would write. -/
def run_pipeline_fs (fs : DownloadsDir) (freshSource freshClip : Nat) :
    DownloadsDir :=
  let fs1 : DownloadsDir :=
    { fs with source_file := download_youtube_video_fs fs.source_file freshSource }
  { fs1 with clip_file := write_videofile_fs fs1.clip_file freshClip }

/-- C3: the Caption Generator is a total function — on any adapter error it
returns exactly the fixed fallback string, and on adapter success (the
single requested continuation) it returns that text with surrounding
whitespace stripped. -/
theorem C3_caption_contract :
    (∀ e : String, generate_marketing_caption (Except.error e)
        = "Check out this amazing video!") ∧
    (∀ t : String, generate_marketing_caption (Except.ok [t]) = strip t) :=
  ⟨fun _ => rfl, fun _ => rfl⟩

/-- C4: the orchestrator runs fetch, caption, transcode in that order; a
fetch failure aborts the run at once with the original error, before the
transcode stage (hence before any output file) — the trace stops at
`Step.fetch`; a caption-adapter failure does not abort: the run still
returns the transcoded output paired with the default caption; a transcode
failure propagates the original cause unchanged. -/
theorem C4_orchestrator (e : String) (adapter : Except String (List String))
    (transcode : String → Except String String) (path out : String) :
    (process_video (Except.error e) adapter transcode
        = (Except.error e, [Step.fetch])) ∧
    (transcode path = Except.ok out →
      process_video (Except.ok path) (Except.error e) transcode
        = (Except.ok (out, "Check out this amazing video!"),
            [Step.fetch, Step.caption, Step.transcode])) ∧
    (∀ e2 : String, transcode path = Except.error e2 →
      process_video (Except.ok path) adapter transcode
        = (Except.error e2, [Step.fetch, Step.caption, Step.transcode])) := by
  refine ⟨rfl, ?_, ?_⟩
  · intro h
    simp [process_video, h, generate_marketing_caption]
  · intro e2 h
    simp [process_video, h]

/-- C4 witness: a run whose fetch fails aborts with that error and never
reaches the transcode stage; a run whose caption adapter fails still
produces the output path and the default caption. -/
theorem C4_orchestrator_witness :
    (process_video (Except.error "network unreachable")
        (Except.error "model unavailable")
        (fun _ => Except.ok "downloads/instagram_clip.mp4")
      = (Except.error "network unreachable", [Step.fetch])) ∧
    (process_video (Except.ok "downloads/source_video.mp4")
        (Except.error "model unavailable")
        (fun _ => Except.ok "downloads/instagram_clip.mp4")
      = (Except.ok ("downloads/instagram_clip.mp4",
            "Check out this amazing video!"),
          [Step.fetch, Step.caption, Step.transcode])) :=
  ⟨(C4_orchestrator "network unreachable" (Except.error "model unavailable")
      (fun _ => Except.ok "downloads/instagram_clip.mp4")
      "downloads/source_video.mp4" "downloads/instagram_clip.mp4").1,
    (C4_orchestrator "model unavailable" (Except.error "model unavailable")
      (fun _ => Except.ok "downloads/instagram_clip.mp4")
      "downloads/source_video.mp4" "downloads/instagram_clip.mp4").2.1 rfl⟩

/-- C5, counterexample. The claim asserts a caption-model load failure is
recovered locally and the run continues; but `__init__` re-raises the load
failure (src line 41), so construction aborts and no run happens at all. -/
theorem C5_counterexample :
    (init_generator 15
        (Except.error "Failed to load text generation model")).isOk
      = false := rfl

/-- C5 (amended): only caption *generation* failures are recovered locally —
the generator substitutes the static default caption and the pipeline run
continues to a successful result; a caption-model *load* failure at
construction is re-raised unchanged, so the generator is never built and no
run occurs. -/
theorem C5_caption_error_recovery (e : String) (clip_duration : ℚ) :
    generate_marketing_caption (Except.error e)
        = "Check out this amazing video!" ∧
    (process_video (Except.ok "downloads/source_video.mp4") (Except.error e)
        (fun _ => Except.ok "downloads/instagram_clip.mp4")).1
      = Except.ok ("downloads/instagram_clip.mp4",
          "Check out this amazing video!") ∧
    init_generator clip_duration (Except.error e) = Except.error e :=
  ⟨rfl, rfl, rfl⟩

/-- C7: the write request is data-independent in its encoding parameters —
for every input the output path, video codec, audio codec and frame rate
are the fixed constants and no spatial resize is applied; any two inputs
produce identical encoding parameters. -/
theorem C7_fixed_encoding (cd1 cd2 : ℚ) (s1 s2 : SourceMedia) (t1 t2 : ℚ) :
    (export_instagram_video cd1 s1 t1).output_path
        = "downloads/instagram_clip.mp4" ∧
    (export_instagram_video cd1 s1 t1).codec = "libx264" ∧
    (export_instagram_video cd1 s1 t1).audio_codec = "aac" ∧
    (export_instagram_video cd1 s1 t1).fps = 30 ∧
    (export_instagram_video cd1 s1 t1).resize = none ∧
    ((export_instagram_video cd1 s1 t1).output_path,
        (export_instagram_video cd1 s1 t1).codec,
        (export_instagram_video cd1 s1 t1).audio_codec,
        (export_instagram_video cd1 s1 t1).fps,
        (export_instagram_video cd1 s1 t1).resize)
      = ((export_instagram_video cd2 s2 t2).output_path,
        (export_instagram_video cd2 s2 t2).codec,
        (export_instagram_video cd2 s2 t2).audio_codec,
        (export_instagram_video cd2 s2 t2).fps,
        (export_instagram_video cd2 s2 t2).resize) :=
  ⟨rfl, rfl, rfl, rfl, rfl, rfl⟩

/-- C8, counterexample. The claim asserts the Caption Generator's result is
non-empty for every adapter outcome; but a successful adapter response whose
text is empty (or all whitespace) is stripped to the empty string and
returned as-is. -/
theorem C8_counterexample :
    generate_marketing_caption (Except.ok [""]) = "" := rfl

/-- C8 (amended): on an adapter error or a malformed (empty) response the
result is the fixed fallback, which is non-empty; on a successful response
the result is the stripped text of the first sequence, non-empty exactly
when that stripped text is — a whitespace-only adapter response makes the
returned caption empty. -/
theorem C8_nonempty_cases (e t : String) (rest : List String)
    (h : strip t ≠ "") :
    generate_marketing_caption (Except.error e) ≠ "" ∧
    generate_marketing_caption (Except.ok []) ≠ "" ∧
    generate_marketing_caption (Except.ok (t :: rest)) ≠ "" := by
  refine ⟨?_, ?_, ?_⟩
  · intro hc
    exact absurd hc (by simp [generate_marketing_caption])
  · intro hc
    exact absurd hc (by simp [generate_marketing_caption])
  · simpa [generate_marketing_caption] using h

/-- C8 witness: a concrete non-whitespace adapter response yields a
non-empty caption, as do the error and empty-response cases. -/
theorem C8_nonempty_cases_witness :
    generate_marketing_caption (Except.error "model unavailable") ≠ "" ∧
    generate_marketing_caption (Except.ok []) ≠ "" ∧
    generate_marketing_caption
        (Except.ok ["Watch this clip today!"]) ≠ "" :=
  C8_nonempty_cases "model unavailable" "Watch this clip today!" []
    (by decide)

/-- C9: the `start_time` argument of `export_instagram_video` has no effect
on the produced job — it is rebound from the centering formula before any
use (src line 116) — so for the same configuration and source, any two
values of `start_time` give identical window, write request and output
path. -/
theorem C9_start_time_irrelevant (clip_duration : ℚ) (source : SourceMedia)
    (s1 s2 : ℚ) :
    export_instagram_video clip_duration source s1
      = export_instagram_video clip_duration source s2 := rfl

/-- C10, counterexample. The claim asserts a second run overwrites both
artifacts at their fixed names; but `yt_dlp` is configured with
`nooverwrites = true` (src line 57), so the second run keeps the first
run's source file (tag 1) instead of writing its fresh download (tag 2):
the state after two runs is not the all-fresh state the claim requires. -/
theorem C10_counterexample :
    ¬ (run_pipeline_fs (run_pipeline_fs ⟨none, none⟩ 1 1) 2 2
        = ⟨some 2, some 2⟩) := by decide

/-- C10 (amended): a second run with the same URL proceeds without error,
but overwrites only the exported clip at its fixed path; the downloaded
source file at its fixed name is kept from the first run — `nooverwrites`
makes `yt_dlp` skip, not overwrite, an existing file. -/
theorem C10_second_run_effect (fs : DownloadsDir) (s c : Nat)
    (h : fs.source_file.isSome = true) :
    (run_pipeline_fs fs s c).source_file = fs.source_file ∧
    (run_pipeline_fs fs s c).clip_file = some c := by
  constructor
  · simp [run_pipeline_fs, download_youtube_video_fs, ydl_opts, h]
  · rfl

/-- C10 witness: after a first run from the empty directory, a second run
keeps the source file and replaces the clip. -/
theorem C10_second_run_effect_witness :
    (run_pipeline_fs (run_pipeline_fs ⟨none, none⟩ 1 1) 2 2).source_file
        = (run_pipeline_fs ⟨none, none⟩ 1 1).source_file ∧
    (run_pipeline_fs (run_pipeline_fs ⟨none, none⟩ 1 1) 2 2).clip_file
        = some 2 :=
  C10_second_run_effect (run_pipeline_fs ⟨none, none⟩ 1 1) 2 2 (by decide)

end VideoClipper
